import Mathlib

/-!
Verification of the pytori library (TORI reference/tag catalog).

The Python sources under pytori/ are shallowly embedded below:
pure functions become Lean functions, exception-raising code returns
`Except String`, Python tuples/lists become Lean lists, and Python
value equality on the scheme elements (slot-wise `__eq__`) becomes
derived `DecidableEq` on the corresponding structures.
-/

namespace PyTori

/-- Embedding of `pytori.utilities.find_duplicates`'s loop: walks the
input keeping a `seen` set (membership is by value equality, exactly what
the Python set uses because `__hash__`/`__eq__` of the scheme elements are
both slot-wise); each element already seen is appended to the output, a
fresh one is added to `seen`. -/
def findDupsAux {α : Type} [DecidableEq α] : List α → List α → List α
  | [], _ => []
  | a :: rest, seen =>
    if a ∈ seen then a :: findDupsAux rest seen
    else findDupsAux rest (a :: seen)

/-- Embedding of `pytori.utilities.find_duplicates`: `dups = []`,
`seen = set()`, then the loop above. -/
def find_duplicates {α : Type} [DecidableEq α] (x : List α) : List α :=
  findDupsAux x []

theorem findDupsAux_count {α : Type} [DecidableEq α] (x : List α) :
    ∀ (seen : List α) (a : α),
      (findDupsAux x seen).count a =
        if a ∈ seen then x.count a else x.count a - 1 := by
  induction x with
  | nil => intro seen a; simp [findDupsAux]
  | cons b rest ih =>
    intro seen a
    by_cases hb : b ∈ seen
    · rw [findDupsAux, if_pos hb]
      by_cases ha : a ∈ seen
      · rw [if_pos ha, List.count_cons, List.count_cons, ih seen a, if_pos ha]
      · have hba : ¬ (b = a) := fun e => ha (e ▸ hb)
        rw [if_neg ha, List.count_cons, List.count_cons, ih seen a, if_neg ha]
        simp [hba]
    · rw [findDupsAux, if_neg hb]
      rw [ih (b :: seen) a]
      by_cases hab : a = b
      · subst hab
        have : a ∈ a :: seen := List.mem_cons_self a seen
        rw [if_pos this, if_neg hb, List.count_cons_self]
        omega
      · have h1 : (a ∈ b :: seen) ↔ (a ∈ seen) := by
          constructor
          · intro h; rcases List.mem_cons.mp h with h | h
            · exact absurd h hab
            · exact h
          · exact fun h => List.mem_cons_of_mem b h
        rw [List.count_cons]
        have hba : ¬ (b = a) := fun e => hab e.symm
        by_cases ha : a ∈ seen
        · rw [if_pos (h1.mpr ha), if_pos ha]
          simp [hba]
        · rw [if_neg (fun h => ha (h1.mp h)), if_neg ha]
          simp [hba]

theorem findDupsAux_sublist {α : Type} [DecidableEq α] (x : List α) :
    ∀ seen : List α, (findDupsAux x seen).Sublist x := by
  induction x with
  | nil => intro seen; simp [findDupsAux]
  | cons b rest ih =>
    intro seen
    by_cases hb : b ∈ seen
    · rw [findDupsAux, if_pos hb]
      exact List.Sublist.cons₂ b (ih seen)
    · rw [findDupsAux, if_neg hb]
      exact List.Sublist.cons b (ih (b :: seen))

theorem find_duplicates_count {α : Type} [DecidableEq α] (x : List α) (a : α) :
    (find_duplicates x).count a = x.count a - 1 := by
  rw [find_duplicates, findDupsAux_count x [] a, if_neg (List.not_mem_nil a)]

theorem find_duplicates_sublist {α : Type} [DecidableEq α] (x : List α) :
    (find_duplicates x).Sublist x :=
  findDupsAux_sublist x []

theorem find_duplicates_eq_nil_iff {α : Type} [DecidableEq α] (x : List α) :
    find_duplicates x = [] ↔ x.Nodup := by
  rw [List.eq_nil_iff_forall_not_mem, List.nodup_iff_count_le_one]
  constructor
  · intro h a
    have := find_duplicates_count x a
    have hz : (find_duplicates x).count a = 0 :=
      List.count_eq_zero.mpr (h a)
    omega
  · intro h a
    rw [← List.count_pos_iff, find_duplicates_count x a]
    have := h a
    omega

/-! ## Scheme elements (pytori/elements.py)

Each Python scheme element class keeps `__slots__`-wise equality and
hashing (`SchemeElement.__eq__` compares all slots after an `isinstance`
check; cross-type comparison, always unequal in Python, is not expressible
between distinct Lean types and never needed by the claims). We embed each
class as a structure whose derived `DecidableEq` is exactly that slot-wise
value equality. -/

/-- Embedding of `elements.TagGroup`: `__slots__ = (name, description)`. -/
structure TagGroup where
  name : String
  description : String
deriving DecidableEq

/-- Embedding of `elements.DEFAULT_TAG_GROUP`. -/
def DEFAULT_TAG_GROUP : TagGroup := ⟨"Default", "Default Tag Group"⟩

/-- Embedding of `elements.Tag`: `__slots__ = (name, description, group)`. -/
structure Tag where
  name : String
  description : String
  group : TagGroup
deriving DecidableEq

/-- Embedding of `elements.Reference`:
`__slots__ = (title, author, tags, url)`; `author` is stored as a tuple
(already normalized by `__init__`), `url` is `None` or a string. -/
structure Reference where
  title : String
  author : List String
  url : Option String
  tags : List Tag
deriving DecidableEq

/-- A Python value that is either a single string or a list of strings,
as accepted for the `author` argument of `Reference.__init__`. -/
inductive StrOrList where
  | str : String → StrOrList
  | list : List String → StrOrList
deriving DecidableEq

/-- `Reference.__init__` author normalization:
`(author,) if isinstance(author, str) else tuple(author)`. -/
def normalizeAuthor : StrOrList → List String
  | .str s => [s]
  | .list l => l

/-- Embedding of `elements.Reference.__init__`. The `tags` parameter
defaults to `None` in the source and is converted with `tuple(tags)`
unconditionally, so passing `tags=None` (the default) raises a `TypeError`
from `tuple(None)`; this fallibility is modelled with `Except`. -/
def Reference.init (title : String) (author : StrOrList) (url : Option String)
    (tags : Option (List Tag)) : Except String Reference :=
  match tags with
  | none => .error "TypeError: NoneType object is not iterable"
  | some ts => .ok ⟨title, normalizeAuthor author, url, ts⟩

/-- Embedding of `elements.Reference.add_tag`:
`if tag not in self.tags: self.tags = self.tags + (tag,)`
(membership is by value equality). -/
def Reference.add_tag (r : Reference) (t : Tag) : Reference :=
  if t ∈ r.tags then r else ⟨r.title, r.author, r.url, r.tags ++ [t]⟩

/-- `SchemeElement.__repr__` for a TagGroup: type name plus key attribute. -/
def TagGroup.reprStr (g : TagGroup) : String := "TagGroup(" ++ g.name ++ ")"

/-- `SchemeElement.__repr__` for a Tag. -/
def Tag.reprStr (t : Tag) : String := "Tag(" ++ t.name ++ ")"

/-- `SchemeElement.__repr__` for a Reference. -/
def Reference.reprStr (r : Reference) : String := "Reference(" ++ r.title ++ ")"

/-- Python `repr` of a list of scheme elements, as interpolated into the
duplicate error messages. -/
def listRepr {α : Type} (f : α → String) (l : List α) : String :=
  "[" ++ String.intercalate ", " (l.map f) ++ "]"

/-! ## The TORI catalog and its validation (pytori/elements.py, class TORI)

Validation code raises `TORISchemeError` or collects message strings in
`self._errors`; we model it as functions from the current error list to
`Except String (List String × Bool)` where the `Bool` is the Python
return value `valid` and the error case is a raised exception. -/

/-- Embedding of `elements.TORI`'s stored collections (the derived
`keys` index and the transient `_errors` are modelled where used). -/
structure TORI where
  tag_groups : List TagGroup
  tags : List Tag
  references : List Reference
deriving DecidableEq

/-- Embedding of `TORI._raise_error`: append the message to the error
list when `collect` is true, otherwise raise `TORISchemeError(message)`. -/
def raiseError (errors : List String) (message : String) (collect : Bool) :
    Except String (List String) :=
  if collect then .ok (errors ++ [message]) else .error message

/-- Result of `TORI.validate`: the collected error-message list in
collect mode, else the boolean validity. -/
inductive ValidateResult where
  | errors : List String → ValidateResult
  | valid : Bool → ValidateResult
deriving DecidableEq

/-- The per-tag attribute checks of `TORI.validate_tags`. NOTE: in the
source these two `_raise_error` calls do not forward
`collect=collect_errors`, so `collect` is its default `False` and a
violation always raises, even in collect mode; the dead continuation
(`valid = False`, next checks) is kept as the bind continuation. -/
def checkTagAttrs : List Tag → List String → Except String (List String × Bool)
  | [], errors => .ok (errors, true)
  | t :: rest, errors =>
    if t.name = "" then
      (raiseError errors ("Tag missing name: " ++ t.reprStr) false).bind
        (fun es => (checkTagAttrs rest es).map (fun p => (p.1, false)))
    else if t.description = "" then
      (raiseError errors ("Tag missing description: " ++ t.reprStr) false).bind
        (fun es => (checkTagAttrs rest es).map (fun p => (p.1, false)))
    else
      checkTagAttrs rest errors

/-- The per-reference attribute checks of `TORI.validate_references`;
like `checkTagAttrs`, the source omits `collect=collect_errors` here. -/
def checkRefAttrs : List Reference → List String → Except String (List String × Bool)
  | [], errors => .ok (errors, true)
  | r :: rest, errors =>
    if r.title = "" then
      (raiseError errors ("Reference missing title: " ++ r.reprStr) false).bind
        (fun es => (checkRefAttrs rest es).map (fun p => (p.1, false)))
    else if r.author = [] then
      (raiseError errors ("Reference missing author: " ++ r.reprStr) false).bind
        (fun es => (checkRefAttrs rest es).map (fun p => (p.1, false)))
    else
      checkRefAttrs rest errors

/-- Embedding of `TORI.validate_tag_groups`: find duplicates among the
tag groups; raise or collect one error when any exist. -/
def TORI.validate_tag_groups (s : TORI) (collect_errors : Bool)
    (errors : List String) : Except String (List String × Bool) :=
  let dups := find_duplicates s.tag_groups
  if dups.isEmpty then .ok (errors, true)
  else
    (raiseError errors
        ("Tag Groups must be unique, found duplicates: " ++ listRepr TagGroup.reprStr dups)
        collect_errors).map (fun es => (es, false))

/-- Embedding of `TORI.validate_tags`: attribute checks (which always
raise on violation, see `checkTagAttrs`), then the uniqueness check,
whose `_raise_error` call does forward `collect=collect_errors`. -/
def TORI.validate_tags (s : TORI) (collect_errors : Bool)
    (errors : List String) : Except String (List String × Bool) :=
  match checkTagAttrs s.tags errors with
  | .error e => .error e
  | .ok (errors, validAttrs) =>
    let dups := find_duplicates s.tags
    if dups.isEmpty then .ok (errors, validAttrs)
    else
      (raiseError errors
          ("Tags must be unique, found duplicates: " ++ listRepr Tag.reprStr dups)
          collect_errors).map (fun es => (es, false))

/-- Embedding of `TORI.validate_references`: same shape as
`TORI.validate_tags`. -/
def TORI.validate_references (s : TORI) (collect_errors : Bool)
    (errors : List String) : Except String (List String × Bool) :=
  match checkRefAttrs s.references errors with
  | .error e => .error e
  | .ok (errors, validAttrs) =>
    let dups := find_duplicates s.references
    if dups.isEmpty then .ok (errors, validAttrs)
    else
      (raiseError errors
          ("References must be unique, found duplicates: " ++ listRepr Reference.reprStr dups)
          collect_errors).map (fun es => (es, false))

/-- Embedding of `TORI.validate`: clear `_errors`, run the three
sub-validations in order (each may raise), then return the collected
errors in collect mode, else `all([...])`. -/
def TORI.validate (s : TORI) (collect_errors : Bool) : Except String ValidateResult :=
  match s.validate_tag_groups collect_errors [] with
  | .error e => .error e
  | .ok (errors, v1) =>
    match s.validate_tags collect_errors errors with
    | .error e => .error e
    | .ok (errors, v2) =>
      match s.validate_references collect_errors errors with
      | .error e => .error e
      | .ok (errors, v3) =>
        if collect_errors then .ok (.errors errors)
        else .ok (.valid (v1 && v2 && v3))

/-! ## The loader (pytori/parse.py, load_dict)

`load_dict` receives an untyped nested mapping. We embed the accepted
domain after the top-level structural checks (the three top-level keys
located case-insensitively, each value a list of dicts): the input is
three lists of raw element records. A raw record has an `Option` field
per known key, `none` meaning the key is absent from the element dict
(nested keys are matched case-sensitively in the source, so field access
is exact); extra keys are discarded by the source and carry no content
relevant to any behaviour modelled here. -/

/-- A raw tag-group dict: the `TagGroup.__slots__` keys, possibly absent. -/
structure RawTagGroup where
  name : Option String
  description : Option String
deriving DecidableEq

/-- A raw tag dict: the `Tag.__slots__` keys, possibly absent. -/
structure RawTag where
  name : Option String
  description : Option String
  group : Option String
deriving DecidableEq

/-- A raw reference dict: the `Reference.__slots__` keys, possibly
absent; `author` is a string or a list of strings, `tags` a list of tag
names. -/
structure RawRef where
  title : Option String
  author : Option StrOrList
  tags : Option (List String)
  url : Option String
deriving DecidableEq

/-- The accepted top-level input of `load_dict`: the values found under
the (case-insensitively matched) keys tag_groups, tags, references. -/
structure ToriDict where
  tag_groups : List RawTagGroup
  tags : List RawTag
  references : List RawRef
deriving DecidableEq

/-- Lookup in an association list built like a Python dict comprehension:
later bindings overwrite earlier ones, so the last matching key wins. -/
def keyLookup {α : Type} : List (String × α) → String → Option α
  | [], _ => none
  | (k, v) :: rest, key =>
    match keyLookup rest key with
    | some r => some r
    | none => if k = key then some v else none

/-- One iteration of the tag-group build loop of `load_dict`: check each
`TagGroup.__slots__` key is present (raising `TORIParseError` otherwise,
in slot order), then construct the TagGroup. -/
def buildTagGroup (d : RawTagGroup) : Except String TagGroup :=
  match d.name with
  | none => .error "TagGroup dict missing key: name"
  | some name =>
    match d.description with
    | none => .error "TagGroup dict missing key: description"
    | some description => .ok ⟨name, description⟩

/-- The tag-group build loop of `load_dict` over the input entries (the
sentinel `DEFAULT_TAG_GROUP` is prepended by `load_dict` itself). -/
def buildTagGroups : List RawTagGroup → Except String (List TagGroup)
  | [] => .ok []
  | d :: rest =>
    match buildTagGroup d with
    | .error e => .error e
    | .ok g =>
      match buildTagGroups rest with
      | .error e => .error e
      | .ok gs => .ok (g :: gs)

/-- One iteration of the tag build loop of `load_dict`: check each
`Tag.__slots__` key is present (in slot order), then resolve `group`
against the tag-group index, raising a referential `TORIParseError`
naming the tag and the unresolved group. -/
def buildTag (gmap : List (String × TagGroup)) (d : RawTag) : Except String Tag :=
  match d.name with
  | none => .error "Tag dict missing key: name"
  | some name =>
    match d.description with
    | none => .error "Tag dict missing key: description"
    | some description =>
      match d.group with
      | none => .error "Tag dict missing key: group"
      | some groupName =>
        match keyLookup gmap groupName with
        | none => .error ("Tag " ++ name ++ " has undefined group " ++ groupName)
        | some g => .ok ⟨name, description, g⟩

/-- The tag build loop of `load_dict`. -/
def buildTags (gmap : List (String × TagGroup)) : List RawTag → Except String (List Tag)
  | [] => .ok []
  | d :: rest =>
    match buildTag gmap d with
    | .error e => .error e
    | .ok t =>
      match buildTags gmap rest with
      | .error e => .error e
      | .ok ts => .ok (t :: ts)

/-- The inner loop over a reference's raw tag names: resolve each name
against the tag index, raising a referential `TORIParseError` naming the
reference title and the unresolved tag. -/
def resolveRefTags (tmap : List (String × Tag)) (title : String) :
    List String → Except String (List Tag)
  | [] => .ok []
  | rt :: rest =>
    match keyLookup tmap rt with
    | none => .error ("Reference " ++ title ++ " has undefined tag " ++ rt)
    | some t =>
      match resolveRefTags tmap title rest with
      | .error e => .error e
      | .ok ts => .ok (t :: ts)

/-- One iteration of the reference build loop of `load_dict`: check each
`Reference.__required_slots__` key is present (in slot order), resolve
the listed tag names, then evaluate the slot projection
`\x7bslot: reference_dict[slot] for slot in Reference.__slots__\x7d`,
which indexes ALL slots including the optional `url` and therefore
raises `KeyError` when `url` is absent; finally call
`Reference.__init__` with the resolved tags. -/
def buildReference (tmap : List (String × Tag)) (d : RawRef) : Except String Reference :=
  match d.title with
  | none => .error "Reference dict missing required key: title"
  | some title =>
    match d.author with
    | none => .error "Reference dict missing required key: author"
    | some author =>
      match d.tags with
      | none => .error "Reference dict missing required key: tags"
      | some rawTags =>
        match resolveRefTags tmap title rawTags with
        | .error e => .error e
        | .ok tags =>
          match d.url with
          | none => .error "KeyError: url"
          | some url => Reference.init title author (some url) (some tags)

/-- The reference build loop of `load_dict`. -/
def buildReferences (tmap : List (String × Tag)) : List RawRef → Except String (List Reference)
  | [] => .ok []
  | d :: rest =>
    match buildReference tmap d with
    | .error e => .error e
    | .ok r =>
      match buildReferences tmap rest with
      | .error e => .error e
      | .ok rs => .ok (r :: rs)

/-- Embedding of `parse.load_dict` after the top-level structural
checks: build tag groups (sentinel first), index them by name, build
tags, index them by name, build references, construct the TORI catalog.
Any raised `TORIParseError`/`KeyError` propagates; `validate` is not
invoked. -/
def load_dict (d : ToriDict) : Except String TORI :=
  match buildTagGroups d.tag_groups with
  | .error e => .error e
  | .ok builtGroups =>
    let tag_groups := DEFAULT_TAG_GROUP :: builtGroups
    let tag_group_map := tag_groups.map (fun g => (g.name, g))
    match buildTags tag_group_map d.tags with
    | .error e => .error e
    | .ok tags =>
      let tag_map := tags.map (fun t => (t.name, t))
      match buildReferences tag_map d.references with
      | .error e => .error e
      | .ok references => .ok ⟨tag_groups, tags, references⟩

/-! ## Claim theorems -/

/-- Claim C3, counterexample: the claim says each duplicate is reported
exactly once, so an element occurring three or more times appears only
once in the result; but `find_duplicates [1, 1, 1]` is `[1, 1]`, the
element 1 (occurring three times) is reported twice. -/
theorem claim_C3_counterexample :
    find_duplicates [1, 1, 1] = [1, 1] ∧
      (find_duplicates [1, 1, 1]).count 1 ≠ 1 := by
  exact ⟨by decide, by decide⟩

/-- Claim C3, amended: `find_duplicates` returns the repeat occurrences
of the input in order: the result is a subsequence of the input, and an
element occurring k times appears k - 1 times in it (so an element
occurring three times appears twice, not once). -/
theorem claim_C3_amended {α : Type} [DecidableEq α] (x : List α) :
    (find_duplicates x).Sublist x ∧
      ∀ a : α, (find_duplicates x).count a = x.count a - 1 :=
  ⟨find_duplicates_sublist x, fun a => find_duplicates_count x a⟩

/-- Claim C4: for every ordered sequence S, `find_duplicates S` is empty
iff the elements of S are pairwise distinct under full value equality;
and `find_duplicates [1, 2, 3, 3] = [3]`. -/
theorem claim_C4 {α : Type} [DecidableEq α] (S : List α) :
    (find_duplicates S = [] ↔ S.Nodup) ∧
      find_duplicates [1, 2, 3, 3] = [3] :=
  ⟨find_duplicates_eq_nil_iff S, by decide⟩

/-- Claim C9: `add_tag` with a tag already present (by value equality)
leaves the reference unchanged, so a second `add_tag` with the same tag
changes nothing after the first. -/
theorem claim_C9 (r : Reference) (t : Tag) :
    (t ∈ r.tags → r.add_tag t = r) ∧
      (r.add_tag t).add_tag t = r.add_tag t := by
  constructor
  · intro h
    simp [Reference.add_tag, h]
  · by_cases h : t ∈ r.tags
    · simp [Reference.add_tag, h]
    · simp [Reference.add_tag, h]

/-- Claim C9 witness: a concrete reference already carrying the tag. -/
theorem claim_C9_witness :
    (Reference.add_tag ⟨"R", ["A"], none, [⟨"t", "d", DEFAULT_TAG_GROUP⟩]⟩
        ⟨"t", "d", DEFAULT_TAG_GROUP⟩ =
      ⟨"R", ["A"], none, [⟨"t", "d", DEFAULT_TAG_GROUP⟩]⟩) ∧
    (Reference.add_tag
        (Reference.add_tag ⟨"R", ["A"], none, [⟨"t", "d", DEFAULT_TAG_GROUP⟩]⟩
          ⟨"t", "d", DEFAULT_TAG_GROUP⟩)
        ⟨"t", "d", DEFAULT_TAG_GROUP⟩ =
      Reference.add_tag ⟨"R", ["A"], none, [⟨"t", "d", DEFAULT_TAG_GROUP⟩]⟩
        ⟨"t", "d", DEFAULT_TAG_GROUP⟩) :=
  ⟨(claim_C9 ⟨"R", ["A"], none, [⟨"t", "d", DEFAULT_TAG_GROUP⟩]⟩
      ⟨"t", "d", DEFAULT_TAG_GROUP⟩).1 (by decide),
   (claim_C9 ⟨"R", ["A"], none, [⟨"t", "d", DEFAULT_TAG_GROUP⟩]⟩
      ⟨"t", "d", DEFAULT_TAG_GROUP⟩).2⟩

/-- Claim C10: `Reference.__init__` with `tags=None` (its declared
default) always raises a `TypeError` because of the unconditional
`tuple(tags)`, and with any supplied iterable of tags it succeeds,
storing the normalized author and the given tags. -/
theorem claim_C10 (title : String) (author : StrOrList) (url : Option String) :
    Reference.init title author url none =
        .error "TypeError: NoneType object is not iterable" ∧
      ∀ ts : List Tag,
        Reference.init title author url (some ts) =
          .ok ⟨title, normalizeAuthor author, url, ts⟩ :=
  ⟨rfl, fun _ => rfl⟩

/-- Claim C7: duplicate detection in `validate_tag_groups` uses
full-attribute value equality: two fully identical tag groups are
flagged as duplicates (the check fails), while two tag groups sharing a
name but differing in description are not (the check passes). -/
theorem claim_C7 (g g2 : TagGroup) (tags : List Tag) (refs : List Reference) :
    (TORI.validate_tag_groups ⟨[g, g], tags, refs⟩ true [] =
        .ok (["Tag Groups must be unique, found duplicates: " ++
                listRepr TagGroup.reprStr [g]], false)) ∧
      (g.name = g2.name → g.description ≠ g2.description →
        TORI.validate_tag_groups ⟨[g, g2], tags, refs⟩ true [] = .ok ([], true)) := by
  constructor
  · simp [TORI.validate_tag_groups, find_duplicates, findDupsAux, raiseError,
      Except.map]
  · intro _ hdesc
    have hne : ¬ (g2 = g) := fun e => hdesc (by rw [e])
    simp [TORI.validate_tag_groups, find_duplicates, findDupsAux, hne]

/-- Claim C7 witness: concrete groups, identical and name-colliding. -/
theorem claim_C7_witness :
    (TORI.validate_tag_groups ⟨[⟨"A", "d"⟩, ⟨"A", "d"⟩], [], []⟩ true [] =
        .ok (["Tag Groups must be unique, found duplicates: [TagGroup(A)]"], false)) ∧
      (TORI.validate_tag_groups ⟨[⟨"A", "d"⟩, ⟨"A", "e"⟩], [], []⟩ true [] =
        .ok ([], true)) :=
  ⟨(claim_C7 ⟨"A", "d"⟩ ⟨"A", "e"⟩ [] []).1,
   (claim_C7 ⟨"A", "d"⟩ ⟨"A", "e"⟩ [] []).2 rfl (by decide)⟩

/-- Claim C1, code evaluation at the failing input: a catalog with one
duplicate tag group, one tag missing its description and one duplicate
reference. `validate(collect_errors=True)` collects the tag-group
duplicate, but then `validate_tags` raises `TORISchemeError` on the tag
with the empty description (its `_raise_error` call does not forward
`collect=collect_errors`), so the method raises instead of returning the
three error messages the claim requires. -/
theorem claim_C1_code_eval :
    TORI.validate
        ⟨[⟨"G", "desc"⟩, ⟨"G", "desc"⟩],
         [⟨"t", "", ⟨"G", "desc"⟩⟩],
         [⟨"R", ["A"], none, []⟩, ⟨"R", ["A"], none, []⟩]⟩ true =
      .error "Tag missing description: Tag(t)" := by
  rfl

/-- Claim C2, code evaluation at the failing input: a reference dict
with all required keys (title, author, tags, all tags resolvable) but no
`url` key. The slot projection in `load_dict` indexes every slot of
`Reference.__slots__` including the optional `url`, so the load raises
`KeyError` instead of succeeding. -/
theorem claim_C2_code_eval :
    load_dict ⟨[], [], [⟨some "T", some (.str "A"), some [], none⟩]⟩ =
      .error "KeyError: url" := by
  rfl

/-- Claim C5: with `collect_errors=False`, a catalog whose tag groups
contain duplicates makes `validate` raise the tag-group uniqueness error
itself, whatever the tags and references are: the raised error is the
tag-group message, so the tag and reference sub-validations are never
reached. -/
theorem claim_C5 (s : TORI) (h : find_duplicates s.tag_groups ≠ []) :
    s.validate false =
      .error ("Tag Groups must be unique, found duplicates: " ++
        listRepr TagGroup.reprStr (find_duplicates s.tag_groups)) := by
  have hne : (find_duplicates s.tag_groups).isEmpty = false := by
    simpa [List.isEmpty_iff] using h
  simp [TORI.validate, TORI.validate_tag_groups, hne, raiseError, Except.map]

/-- Claim C5 witness: the C1 scenario catalog (duplicate tag group, tag
missing description, duplicate reference) in fail-fast mode raises the
tag-group error, showing the later checks were not reached. -/
theorem claim_C5_witness :
    (find_duplicates (TORI.tag_groups
        ⟨[⟨"A", "d"⟩, ⟨"A", "d"⟩],
         [⟨"t", "", ⟨"A", "d"⟩⟩],
         [⟨"R", ["A"], none, []⟩, ⟨"R", ["A"], none, []⟩]⟩) ≠ []) ∧
      TORI.validate
          ⟨[⟨"A", "d"⟩, ⟨"A", "d"⟩],
           [⟨"t", "", ⟨"A", "d"⟩⟩],
           [⟨"R", ["A"], none, []⟩, ⟨"R", ["A"], none, []⟩]⟩ false =
        .error "Tag Groups must be unique, found duplicates: [TagGroup(A)]" :=
  ⟨by decide,
   claim_C5
     ⟨[⟨"A", "d"⟩, ⟨"A", "d"⟩],
      [⟨"t", "", ⟨"A", "d"⟩⟩],
      [⟨"R", ["A"], none, []⟩, ⟨"R", ["A"], none, []⟩]⟩ (by decide)⟩

/-- Claim C8: every catalog returned by `load_dict` has the sentinel
default tag group as the first element of its tag-group sequence. -/
theorem claim_C8 (d : ToriDict) (t : TORI) (h : load_dict d = .ok t) :
    ∃ rest, t.tag_groups = DEFAULT_TAG_GROUP :: rest := by
  unfold load_dict at h
  rcases hg : buildTagGroups d.tag_groups with e | gs <;> rw [hg] at h
  · simp at h
  · simp only at h
    rcases ht : buildTags ((DEFAULT_TAG_GROUP :: gs).map fun g => (g.name, g)) d.tags
      with e | ts <;> rw [ht] at h
    · simp at h
    · simp only at h
      rcases hr : buildReferences (ts.map fun tg => (tg.name, tg)) d.references
        with e | rs <;> rw [hr] at h
      · simp at h
      · simp only [Except.ok.injEq] at h
        exact ⟨gs, by rw [← h]⟩

/-- Claim C8 witness: loading an input with an empty tag-group list
still puts the default group first. -/
theorem claim_C8_witness :
    ∃ rest, TORI.tag_groups ⟨[DEFAULT_TAG_GROUP], [], []⟩ =
      DEFAULT_TAG_GROUP :: rest :=
  claim_C8 ⟨[], [], []⟩ ⟨[DEFAULT_TAG_GROUP], [], []⟩ rfl

theorem buildTag_undefined_group (gmap : List (String × TagGroup)) (t : RawTag)
    (name desc gname : String) (h1 : t.name = some name)
    (h2 : t.description = some desc) (h3 : t.group = some gname)
    (h4 : keyLookup gmap gname = none) :
    buildTag gmap t = .error ("Tag " ++ name ++ " has undefined group " ++ gname) := by
  simp [buildTag, h1, h2, h3, h4]

theorem buildTags_cons_error (gmap : List (String × TagGroup)) (t : RawTag)
    (post : List RawTag) (msg : String) (ht : buildTag gmap t = .error msg) :
    buildTags gmap (t :: post) = .error msg := by
  simp [buildTags, ht]

theorem buildTags_append_ok_error (gmap : List (String × TagGroup))
    (pre l : List RawTag) (msg : String)
    (hpre : ∃ ts, buildTags gmap pre = .ok ts)
    (hl : buildTags gmap l = .error msg) :
    buildTags gmap (pre ++ l) = .error msg := by
  induction pre with
  | nil => simpa using hl
  | cons a rest ih =>
    obtain ⟨ts, hts⟩ := hpre
    rw [List.cons_append]
    simp only [buildTags] at hts ⊢
    rcases ha : buildTag gmap a with e | tg
    · rw [ha] at hts; simp at hts
    · rw [ha] at hts
      rcases hr : buildTags gmap rest with e | ts2
      · rw [hr] at hts; simp at hts
      · rw [ih ⟨ts2, hr⟩]

theorem resolveRefTags_cons_error (tmap : List (String × Tag))
    (title bad : String) (trest : List String)
    (h : keyLookup tmap bad = none) :
    resolveRefTags tmap title (bad :: trest) =
      .error ("Reference " ++ title ++ " has undefined tag " ++ bad) := by
  simp [resolveRefTags, h]

theorem resolveRefTags_append_ok_error (tmap : List (String × Tag))
    (title : String) (tpre l : List String) (msg : String)
    (hpre : ∃ ts, resolveRefTags tmap title tpre = .ok ts)
    (hl : resolveRefTags tmap title l = .error msg) :
    resolveRefTags tmap title (tpre ++ l) = .error msg := by
  induction tpre with
  | nil => simpa using hl
  | cons a rest ih =>
    obtain ⟨ts, hts⟩ := hpre
    rw [List.cons_append]
    simp only [resolveRefTags] at hts ⊢
    rcases ha : keyLookup tmap a with _ | tg
    · rw [ha] at hts; simp at hts
    · rw [ha] at hts
      rcases hr : resolveRefTags tmap title rest with e | ts2
      · rw [hr] at hts; simp at hts
      · rw [ih ⟨ts2, hr⟩]

theorem buildReference_resolve_error (tmap : List (String × Tag)) (r : RawRef)
    (title : String) (author : StrOrList) (rawTags : List String) (msg : String)
    (h1 : r.title = some title) (h2 : r.author = some author)
    (h3 : r.tags = some rawTags)
    (h4 : resolveRefTags tmap title rawTags = .error msg) :
    buildReference tmap r = .error msg := by
  simp [buildReference, h1, h2, h3, h4]

theorem buildReferences_cons_error (tmap : List (String × Tag)) (r : RawRef)
    (post : List RawRef) (msg : String) (hr : buildReference tmap r = .error msg) :
    buildReferences tmap (r :: post) = .error msg := by
  simp [buildReferences, hr]

theorem buildReferences_append_ok_error (tmap : List (String × Tag))
    (pre l : List RawRef) (msg : String)
    (hpre : ∃ rs, buildReferences tmap pre = .ok rs)
    (hl : buildReferences tmap l = .error msg) :
    buildReferences tmap (pre ++ l) = .error msg := by
  induction pre with
  | nil => simpa using hl
  | cons a rest ih =>
    obtain ⟨rs, hrs⟩ := hpre
    rw [List.cons_append]
    simp only [buildReferences] at hrs ⊢
    rcases ha : buildReference tmap a with e | r0
    · rw [ha] at hrs; simp at hrs
    · rw [ha] at hrs
      rcases hr : buildReferences tmap rest with e | rs2
      · rw [hr] at hrs; simp at hrs
      · rw [ih ⟨rs2, hr⟩]

theorem load_dict_tags_error (d : ToriDict) (builtGroups : List TagGroup)
    (msg : String) (hg : buildTagGroups d.tag_groups = .ok builtGroups)
    (ht : buildTags ((DEFAULT_TAG_GROUP :: builtGroups).map fun g => (g.name, g))
        d.tags = .error msg) :
    load_dict d = .error msg := by
  have ht2 := ht
  simp only [List.map_cons] at ht2
  simp [load_dict, hg, ht2]

theorem load_dict_refs_error (d : ToriDict) (builtGroups : List TagGroup)
    (allTags : List Tag) (msg : String)
    (hg : buildTagGroups d.tag_groups = .ok builtGroups)
    (ht : buildTags ((DEFAULT_TAG_GROUP :: builtGroups).map fun g => (g.name, g))
        d.tags = .ok allTags)
    (hr : buildReferences (allTags.map fun t => (t.name, t)) d.references =
        .error msg) :
    load_dict d = .error msg := by
  have ht2 := ht
  simp only [List.map_cons] at ht2
  simp [load_dict, hg, ht2, hr]

/-- Claim C6: whenever the input reaches the offending entry (the tag
groups all build, and every earlier tag builds), a tag whose `group`
does not resolve against the built tag-group index makes `load_dict`
raise the referential error naming that tag and the missing group; and
whenever the input reaches the offending reference (all tags build,
every earlier reference builds, the reference has its required keys and
its earlier tag names resolve), a tag name not among the built tags
makes `load_dict` raise the referential error naming the reference
title and the missing tag. In both cases the result is an error, so no
catalog is returned. -/
theorem claim_C6 (d : ToriDict) (builtGroups : List TagGroup)
    (hg : buildTagGroups d.tag_groups = .ok builtGroups) :
    (∀ (pre post : List RawTag) (t : RawTag) (tname tdesc gname : String),
      d.tags = pre ++ t :: post →
      (∃ ts, buildTags ((DEFAULT_TAG_GROUP :: builtGroups).map fun g => (g.name, g))
          pre = .ok ts) →
      t.name = some tname → t.description = some tdesc → t.group = some gname →
      keyLookup ((DEFAULT_TAG_GROUP :: builtGroups).map fun g => (g.name, g))
          gname = none →
      load_dict d = .error ("Tag " ++ tname ++ " has undefined group " ++ gname)) ∧
    (∀ allTags : List Tag,
      buildTags ((DEFAULT_TAG_GROUP :: builtGroups).map fun g => (g.name, g))
          d.tags = .ok allTags →
      ∀ (pre post : List RawRef) (r : RawRef) (title : String)
        (author : StrOrList) (rawTags tpre trest : List String) (badTag : String),
        d.references = pre ++ r :: post →
        (∃ rs, buildReferences (allTags.map fun t => (t.name, t)) pre = .ok rs) →
        r.title = some title → r.author = some author → r.tags = some rawTags →
        rawTags = tpre ++ badTag :: trest →
        (∃ ts, resolveRefTags (allTags.map fun t => (t.name, t)) title tpre = .ok ts) →
        keyLookup (allTags.map fun t => (t.name, t)) badTag = none →
        load_dict d =
          .error ("Reference " ++ title ++ " has undefined tag " ++ badTag)) := by
  constructor
  · intro pre post t tname tdesc gname hsplit hpre h1 h2 h3 h4
    refine load_dict_tags_error d builtGroups _ hg ?_
    rw [hsplit]
    exact buildTags_append_ok_error _ pre _ _ hpre
      (buildTags_cons_error _ t post _
        (buildTag_undefined_group _ t tname tdesc gname h1 h2 h3 h4))
  · intro allTags hts pre post r title author rawTags tpre trest badTag
      hsplit hpre h1 h2 h3 hraw htpre h4
    refine load_dict_refs_error d builtGroups allTags _ hg hts ?_
    rw [hsplit]
    refine buildReferences_append_ok_error _ pre _ _ hpre
      (buildReferences_cons_error _ r post _ ?_)
    refine buildReference_resolve_error _ r title author rawTags _ h1 h2 h3 ?_
    rw [hraw]
    exact resolveRefTags_append_ok_error _ title tpre _ _ htpre
      (resolveRefTags_cons_error _ title badTag trest h4)

/-- Claim C6 witness: a tag naming the undefined group X, and a
reference naming the undefined tag z, each make `load_dict` raise the
corresponding referential error. -/
theorem claim_C6_witness :
    (load_dict ⟨[], [⟨some "t", some "d", some "X"⟩], []⟩ =
        .error "Tag t has undefined group X") ∧
      (load_dict ⟨[], [], [⟨some "Rt", some (.str "A"), some ["z"], some "u"⟩]⟩ =
        .error "Reference Rt has undefined tag z") :=
  ⟨(claim_C6 ⟨[], [⟨some "t", some "d", some "X"⟩], []⟩ [] rfl).1
      [] [] ⟨some "t", some "d", some "X"⟩ "t" "d" "X" rfl ⟨[], rfl⟩ rfl rfl rfl
      (by decide),
   (claim_C6 ⟨[], [], [⟨some "Rt", some (.str "A"), some ["z"], some "u"⟩]⟩ [] rfl).2
      [] rfl [] [] ⟨some "Rt", some (.str "A"), some ["z"], some "u"⟩ "Rt"
      (.str "A") ["z"] [] [] "z" rfl ⟨[], rfl⟩ rfl rfl rfl rfl ⟨[], rfl⟩ rfl⟩

end PyTori
